import Mathlib

/-!
Shallow embedding of the two data-bearing Express services of the
restaurant-microservices repository (backend/orders/server.js over MySQL and
the feedback service over MongoDB), together with the health endpoints of all
three services (including backend/auth/server.js).

Modelling conventions:
* JavaScript request-body fields are `Option`s of their natural type; JS
  truthiness of a present value is modelled per type (`""` and `0` are falsy,
  arrays are always truthy, absent fields are falsy).
* JSON numbers are rationals (`ℚ`); `parseInt` applied to a number is
  truncation toward zero, `parseInt` applied to a query string takes an
  optional sign and the leading run of decimal digits (`none` models `NaN`).
* The MySQL `orders` table is a list of rows plus the `AUTO_INCREMENT`
  counter; SQL `SELECT ... WHERE id = ?` / `UPDATE` / `DELETE` become list
  filter / map / filter, and `affectedRows` is the number of matched rows.
* The MongoDB `feedback` collection is a list of documents plus a counter for
  driver-generated ObjectIds.  BSON `_id` values are two-sorted
  (`BsonId.oid` for driver-generated ObjectIds, `BsonId.str` for string
  literals): the `mongodb` driver does not coerce a string query value to an
  ObjectId, so `findOne` with a string `_id` never matches an ObjectId key.
* `new Date()` / `CURRENT_TIMESTAMP` become an explicit `now : Nat` argument;
  timestamps never influence control flow.
* The per-request `checkDatabase` middleware becomes a `Bool` argument
  (`isConnected`) threaded through `serve`.
-/

-- JS truthiness of an optional string field (absent and "" are falsy).
def truthyStr : Option String → Bool
  | none => false
  | some s => if s = "" then false else true

-- JS truthiness of an optional numeric field (absent and 0 are falsy).
def truthyNum : Option ℚ → Bool
  | none => false
  | some q => if q = 0 then false else true

-- JS truthiness of an optional array field (arrays, even empty, are truthy).
def truthyArr : Option (List String) → Bool
  | none => false
  | some _ => true

-- JS parseInt applied to a number in the feedback service: the number is
-- stringified and the integer prefix is kept, i.e. truncation toward zero.
def jsParseInt (q : ℚ) : Int :=
  if 0 ≤ q then Rat.floor q else -(Rat.floor (-q))

def digitVal (c : Char) : Nat := c.toNat - 48

-- Decimal-prefix part of JS parseInt on strings; none models NaN.
def jsParseIntDigits (cs : List Char) : Option Nat :=
  match cs.takeWhile Char.isDigit with
  | [] => none
  | ds => some (ds.foldl (fun a c => a * 10 + digitVal c) 0)

-- JS parseInt on a query-string value: optional whitespace, optional sign,
-- then the leading run of decimal digits ("0x..." hex form not modelled).
def jsParseIntStr (s : String) : Option Int :=
  match s.data.dropWhile (fun c => c == ' ') with
  | '-' :: rest => (jsParseIntDigits rest).map (fun n => -(n : Int))
  | '+' :: rest => (jsParseIntDigits rest).map (fun n => (n : Int))
  | cs => (jsParseIntDigits cs).map (fun n => (n : Int))

-- JS Math.round (round half toward positive infinity).
def mathRound (q : ℚ) : Int := Rat.floor (q + mkRat 1 2)

-- Math.round(q * 100) / 100 as used by the feedback stats route.
def round2 (q : ℚ) : ℚ := (mathRound (q * 100) : ℚ) / 100

-- Sorting, as a structurally recursive insertion sort (the claims below only
-- depend on the result being a permutation-with-the-same-members, not on the
-- database engine's concrete ordering algorithm).
def insertSorted {α : Type} (le : α → α → Bool) (a : α) : List α → List α
  | [] => [a]
  | b :: bs => if le a b then a :: b :: bs else b :: insertSorted le a bs

def insertionSort {α : Type} (le : α → α → Bool) : List α → List α
  | [] => []
  | a :: as => insertSorted le a (insertionSort le as)

-- ORDER BY created_at DESC / .sort(createdAt: -1) on a list.
def sortByCreatedDesc {α : Type} (key : α → Nat) (l : List α) : List α :=
  insertionSort (fun a b => decide (key b ≤ key a)) l

-- JSON.stringify of the opaque items array (items are opaque serialized
-- fragments; the orders service never parses them back).
def stringifyItems (items : List String) : String :=
  "[" ++ String.intercalate "," items ++ "]"

namespace Orders

-- One row of the MySQL orders table (backend/orders/database-setup.sql):
-- id INT AUTO_INCREMENT, user_id VARCHAR, items JSON, total DECIMAL,
-- status ENUM, created_at/updated_at TIMESTAMP.
structure OrderRow where
  id : Nat
  user_id : String
  items : String
  total : ℚ
  status : String
  created_at : Nat
  updated_at : Nat
  deriving DecidableEq

-- The orders database: the table rows plus the AUTO_INCREMENT counter.
structure DbState where
  rows : List OrderRow
  nextId : Nat
  deriving DecidableEq

-- req.query of GET /orders.
structure ListQuery where
  user_id : Option String
  status : Option String

-- req.body of POST /orders.
structure PostBody where
  user_id : Option String
  items : Option (List String)
  total : Option ℚ

-- req.body of PUT /orders/:id.
structure PutBody where
  status : Option String
  items : Option (List String)
  total : Option ℚ

-- The JSON envelopes the orders routes can answer with.
inductive Res where
  | unavailable
  | badRequest (error : String)
  | notFound
  | listOk (orders : List OrderRow) (count : Nat)
  | orderOk (o : OrderRow)
  | created (o : OrderRow)
  | deleted
  | serverError
  deriving DecidableEq

def Res.status : Res → Nat
  | .unavailable => 503
  | .badRequest _ => 400
  | .notFound => 404
  | .listOk _ _ => 200
  | .orderOk _ => 200
  | .created _ => 201
  | .deleted => 200
  | .serverError => 500

-- WHERE clause built by GET /orders: a filter is added only for a truthy
-- query param ("" is falsy, hence ignored).
def queryMatch (q : ListQuery) (r : OrderRow) : Bool :=
  (match q.user_id with
    | none => true
    | some u => if u = "" then true else r.user_id == u) &&
  (match q.status with
    | none => true
    | some s => if s = "" then true else r.status == s)

-- Result list of GET /orders: filtered rows, ORDER BY created_at DESC.
def listResult (st : DbState) (q : ListQuery) : List OrderRow :=
  sortByCreatedDesc (fun r => r.created_at) (st.rows.filter (queryMatch q))

-- GET /orders
def listOrders (st : DbState) (q : ListQuery) : DbState × Res :=
  ((st, .listOk (listResult st q) (listResult st q).length))

-- SELECT * FROM orders WHERE id = ?
def selectById (rows : List OrderRow) (id : Nat) : List OrderRow :=
  rows.filter (fun r => r.id == id)

-- GET /orders/:id
def getOrder (st : DbState) (id : Nat) : DbState × Res :=
  match selectById st.rows id with
  | [] => (st, .notFound)
  | r :: _ => (st, .orderOk r)

-- The row INSERTed by POST /orders (status always starts as "pending").
def insertedOrder (st : DbState) (now : Nat) (u : String) (its : List String)
    (t : ℚ) : OrderRow :=
  { id := st.nextId, user_id := u, items := stringifyItems its, total := t
    status := "pending", created_at := now, updated_at := now }

-- The table contents after the INSERT of POST /orders.
def insertedRows (st : DbState) (now : Nat) (b : PostBody) : List OrderRow :=
  st.rows ++ [insertedOrder st now (b.user_id.getD "") (b.items.getD [])
    (b.total.getD 0)]

-- POST /orders
def postOrder (st : DbState) (now : Nat) (b : PostBody) : DbState × Res :=
  if !truthyStr b.user_id || !truthyArr b.items || !truthyNum b.total then
    (st, .badRequest "Dados incompletos")
  else
    match selectById (insertedRows st now b) st.nextId with
    | r :: _ =>
      ({ rows := insertedRows st now b, nextId := st.nextId + 1 }, .created r)
    | [] =>
      ({ rows := insertedRows st now b, nextId := st.nextId + 1 },
        .serverError)

-- The three conditional SETs of PUT /orders/:id (a falsy body field adds no
-- SET clause), followed by the unconditional updated_at = CURRENT_TIMESTAMP.
def applyStatus (b : PutBody) (r : OrderRow) : OrderRow :=
  if truthyStr b.status then { r with status := b.status.getD "" } else r

def applyItems (b : PutBody) (r : OrderRow) : OrderRow :=
  if truthyArr b.items then
    { r with items := stringifyItems (b.items.getD []) }
  else r

def applyTotal (b : PutBody) (r : OrderRow) : OrderRow :=
  if truthyNum b.total then { r with total := b.total.getD 0 } else r

def updRow (b : PutBody) (now : Nat) (r : OrderRow) : OrderRow :=
  { id := (applyTotal b (applyItems b (applyStatus b r))).id
    user_id := (applyTotal b (applyItems b (applyStatus b r))).user_id
    items := (applyTotal b (applyItems b (applyStatus b r))).items
    total := (applyTotal b (applyItems b (applyStatus b r))).total
    status := (applyTotal b (applyItems b (applyStatus b r))).status
    created_at := (applyTotal b (applyItems b (applyStatus b r))).created_at
    updated_at := now }

-- The table contents after the dynamic UPDATE of PUT /orders/:id.
def updatedRows (st : DbState) (id : Nat) (now : Nat) (b : PutBody) :
    List OrderRow :=
  st.rows.map fun r => if r.id == id then updRow b now r else r

-- PUT /orders/:id
def putOrder (st : DbState) (id : Nat) (now : Nat) (b : PutBody) :
    DbState × Res :=
  if !truthyStr b.status && !truthyArr b.items && !truthyNum b.total then
    (st, .badRequest "Dados insuficientes")
  else if (selectById st.rows id).length == 0 then
    ({ st with rows := updatedRows st id now b }, .notFound)
  else
    match selectById (updatedRows st id now b) id with
    | r :: _ => ({ st with rows := updatedRows st id now b }, .orderOk r)
    | [] => ({ st with rows := updatedRows st id now b }, .serverError)

-- DELETE /orders/:id (affectedRows = number of rows the DELETE removed).
def deleteOrder (st : DbState) (id : Nat) : DbState × Res :=
  if st.rows.length == (st.rows.filter (fun r => !(r.id == id))).length then
    (st, .notFound)
  else
    ({ st with rows := st.rows.filter (fun r => !(r.id == id)) }, .deleted)

-- A request to one of the five database-backed routes of the orders service.
inductive Request where
  | list (q : ListQuery)
  | getById (id : Nat)
  | post (b : PostBody)
  | put (id : Nat) (b : PutBody)
  | delete (id : Nat)

def handle (st : DbState) (now : Nat) : Request → DbState × Res
  | .list q => listOrders st q
  | .getById id => getOrder st id
  | .post b => postOrder st now b
  | .put id b => putOrder st id now b
  | .delete id => deleteOrder st id

-- checkDatabase middleware then the route handler: on a failed probe the
-- request is answered 503 before any route handler runs.
def serve (isConnected : Bool) (st : DbState) (now : Nat) (r : Request) :
    DbState × Res :=
  if isConnected then handle st now r else (st, .unavailable)

-- AUTO_INCREMENT well-formedness: existing ids are below the counter.
def IdsBelowNext (st : DbState) : Prop := ∀ r ∈ st.rows, r.id < st.nextId

-- PRIMARY KEY uniqueness of the id column.
def UniqueIds (st : DbState) : Prop :=
  st.rows.Pairwise (fun a b => a.id ≠ b.id)

end Orders

namespace Feedback

-- A BSON _id value: either a driver-generated ObjectId or a plain string.
-- The repository never constructs ObjectId values itself, so its route
-- queries always use the str form while insertOne assigns the oid form.
inductive BsonId where
  | oid (n : Nat)
  | str (s : String)
  deriving DecidableEq

-- One document of the MongoDB feedback collection.
structure FbDoc where
  _id : BsonId
  user_id : String
  rating : Int
  comment : String
  order_id : Option String
  created_at : Nat
  updated_at : Nat
  deriving DecidableEq

-- The feedback collection plus the counter for driver-generated ObjectIds.
structure Store where
  docs : List FbDoc
  nextOid : Nat
  deriving DecidableEq

-- req.query of GET /feedback.
structure ListQuery where
  user_id : Option String
  rating : Option String

-- req.body of POST /feedback.
structure PostBody where
  user_id : Option String
  rating : Option ℚ
  comment : Option String
  order_id : Option String

-- The JSON envelopes the feedback routes can answer with.
inductive Res where
  | unavailable
  | badRequest (error : String)
  | notFound
  | listOk (feedbacks : List FbDoc) (count : Nat)
  | fbOk (f : FbDoc)
  | created (f : Option FbDoc)
  | deleted
  | statsOk (total : Nat) (averageRating : ℚ) (dist : List (Int × Nat))
  deriving DecidableEq

def Res.status : Res → Nat
  | .unavailable => 503
  | .badRequest _ => 400
  | .notFound => 404
  | .listOk _ _ => 200
  | .fbOk _ => 200
  | .created _ => 201
  | .deleted => 200
  | .statsOk _ _ _ => 200

-- MongoDB find filter built by GET /feedback: user_id filter is added for a
-- truthy user_id param, rating filter for a truthy rating param after
-- parseInt (a NaN rating filter matches no integer-rated document).
def queryMatch (q : ListQuery) (d : FbDoc) : Bool :=
  (match q.user_id with
    | none => true
    | some u => if u = "" then true else d.user_id == u) &&
  (match q.rating with
    | none => true
    | some s =>
      if s = "" then true else
        match jsParseIntStr s with
        | none => false
        | some k => d.rating == k)

def listResult (st : Store) (q : ListQuery) : List FbDoc :=
  sortByCreatedDesc (fun d => d.created_at) (st.docs.filter (queryMatch q))

-- GET /feedback
def listFeedback (st : Store) (q : ListQuery) : Store × Res :=
  (st, .listOk (listResult st q) (listResult st q).length)

-- collection.findOne with an _id filter.
def findOne (docs : List FbDoc) (key : BsonId) : Option FbDoc :=
  (docs.filter (fun d => d._id == key)).head?

-- GET /feedback/:id — the route queries with the raw string id.
def getFeedbackById (st : Store) (id : String) : Store × Res :=
  match findOne st.docs (.str id) with
  | none => (st, .notFound)
  | some f => (st, .fbOk f)

-- The document insertOne stores for POST /feedback (the driver assigns the
-- next ObjectId; falsy comment becomes "", falsy order_id becomes null).
def insertedFeedback (st : Store) (now : Nat) (b : PostBody) : FbDoc :=
  { _id := .oid st.nextOid
    user_id := b.user_id.getD ""
    rating := jsParseInt (b.rating.getD 0)
    comment := if truthyStr b.comment then b.comment.getD "" else ""
    order_id := if truthyStr b.order_id then b.order_id else none
    created_at := now, updated_at := now }

-- POST /feedback
def postFeedback (st : Store) (now : Nat) (b : PostBody) : Store × Res :=
  if !truthyStr b.user_id || !truthyNum b.rating then
    (st, .badRequest "Dados incompletos")
  else if b.rating.getD 0 < 1 ∨ b.rating.getD 0 > 5 then
    (st, .badRequest "Rating inválido")
  else
    ({ docs := st.docs ++ [insertedFeedback st now b]
       nextOid := st.nextOid + 1 },
      .created (findOne (st.docs ++ [insertedFeedback st now b])
        (.oid st.nextOid)))

-- collection.deleteOne with an _id filter: removes at most one document and
-- reports deletedCount.
def deleteOne (docs : List FbDoc) (key : BsonId) : List FbDoc × Nat :=
  match docs with
  | [] => ([], 0)
  | d :: ds =>
    if d._id == key then (ds, 1)
    else
      let r := deleteOne ds key
      (d :: r.1, r.2)

-- DELETE /feedback/:id — the route queries with the raw string id.
def deleteFeedback (st : Store) (id : String) : Store × Res :=
  if (deleteOne st.docs (.str id)).2 == 0 then (st, .notFound)
  else ({ st with docs := (deleteOne st.docs (.str id)).1 }, .deleted)

def ratingSum (docs : List FbDoc) : Int := (docs.map (fun d => d.rating)).sum

-- $group by rating with $sum 1, then $sort by rating ascending.
def ratingDistribution (docs : List FbDoc) : List (Int × Nat) :=
  (insertionSort (fun a b => decide (a ≤ b))
      ((docs.map (fun d => d.rating)).eraseDups)).map
    (fun k => (k, (docs.filter (fun d => d.rating == k)).length))

-- GET /feedback/stats (dead code behind the /feedback/:id route, see the
-- dispatch model below).
def statsFeedback (st : Store) : Store × Res :=
  let total := st.docs.length
  let avg : ℚ :=
    if total == 0 then 0 else round2 ((ratingSum st.docs : ℚ) / (total : ℚ))
  (st, .statsOk total avg (ratingDistribution st.docs))

-- A request to one of the database-backed routes of the feedback service.
inductive Request where
  | list (q : ListQuery)
  | getById (id : String)
  | post (b : PostBody)
  | delete (id : String)
  | stats

def handle (st : Store) (now : Nat) : Request → Store × Res
  | .list q => listFeedback st q
  | .getById id => getFeedbackById st id
  | .post b => postFeedback st now b
  | .delete id => deleteFeedback st id
  | .stats => statsFeedback st

-- checkDatabase middleware then the route handler.
def serve (isConnected : Bool) (st : Store) (now : Nat) (r : Request) :
    Store × Res :=
  if isConnected then handle st now r else (st, .unavailable)

-- Driver well-formedness: generated ObjectIds are below the counter.
def OidsBelowNext (st : Store) : Prop :=
  ∀ d ∈ st.docs, ∀ n, d._id = BsonId.oid n → n < st.nextOid

-- Every stored _id is a driver-generated ObjectId (true of every store
-- populated through POST /feedback, which never supplies its own _id).
def AllOids (st : Store) : Prop := ∀ d ∈ st.docs, ∃ n, d._id = BsonId.oid n

-- Range invariant of the data model: ratings are integers in 1..5.
def RatingsOK (st : Store) : Prop :=
  ∀ d ∈ st.docs, 1 ≤ d.rating ∧ d.rating ≤ 5

end Feedback

-- Express routing of the feedback service GET routes: a pattern is a list of
-- literal and parameter segments, and requests are matched against the
-- patterns in registration order (server.js top to bottom).
namespace Routing

inductive Seg where
  | lit (s : String)
  | param
  deriving DecidableEq

def matchPat : List Seg → List String → Option (List String)
  | [], [] => some []
  | .lit l :: ps, s :: ss => if l = s then matchPat ps ss else none
  | .param :: ps, s :: ss => (matchPat ps ss).map (fun args => s :: args)
  | _, _ => none

inductive GetHandler where
  | health
  | list
  | byId
  | stats
  | catchAll
  deriving DecidableEq

-- GET routes of the feedback service in registration order:
-- /health, /feedback, /feedback/:id, /feedback/stats, then the 404 catch-all.
def feedbackGetRoutes : List (List Seg × GetHandler) :=
  [ ([.lit "health"], .health),
    ([.lit "feedback"], .list),
    ([.lit "feedback", .param], .byId),
    ([.lit "feedback", .lit "stats"], .stats) ]

-- First-match dispatch over the registered routes, yielding the handler and
-- the values bound to its path parameters.
def dispatchGet (segs : List String) : GetHandler × List String :=
  match feedbackGetRoutes.findSome?
      (fun rp => (matchPat rp.1 segs).map (fun args => (rp.2, args))) with
  | some h => h
  | none => (.catchAll, [])

-- Full GET pipeline of the feedback service: route dispatch, then the
-- checkDatabase guard, then the matched handler.
def serveGet (isConnected : Bool) (st : Feedback.Store) (q : Feedback.ListQuery)
    (segs : List String) : Feedback.Store × Feedback.Res :=
  match dispatchGet segs with
  | (.health, _) => (st, .listOk [] 0)
  | (.list, _) =>
    if isConnected then Feedback.listFeedback st q else (st, .unavailable)
  | (.byId, id :: _) =>
    if isConnected then Feedback.getFeedbackById st id else (st, .unavailable)
  | (.byId, []) => (st, .notFound)
  | (.stats, _) =>
    if isConnected then Feedback.statsFeedback st else (st, .unavailable)
  | (.catchAll, _) => (st, .notFound)

end Routing

-- The /health responses: HTTP 200 with a JSON body carrying status, service,
-- a dependency field ("database" for orders and feedback, "firebase" for
-- auth) and a timestamp.  The dependency reflects the probe taken during the
-- request; the middleware guard is not installed on /health.
structure Health where
  httpStatus : Nat
  status : String
  service : String
  dependency : String
  timestamp : Nat
  deriving DecidableEq

def ordersHealth (isConnected : Bool) (now : Nat) : Health :=
  { httpStatus := 200, status := "OK", service := "Orders Service"
    dependency := if isConnected then "Connected" else "Disconnected"
    timestamp := now }

def feedbackHealth (isConnected : Bool) (now : Nat) : Health :=
  { httpStatus := 200, status := "OK", service := "Feedback Service"
    dependency := if isConnected then "Connected" else "Disconnected"
    timestamp := now }

-- The auth service probes admin.apps.length > 0.
def authHealth (appsLength : Nat) (now : Nat) : Health :=
  { httpStatus := 200, status := "OK", service := "Auth Service"
    dependency := if appsLength > 0 then "Connected" else "Disconnected"
    timestamp := now }

-- Concrete states used by witnesses.
def ordersEmpty : Orders.DbState := { rows := [], nextId := 1 }

def fbEmpty : Feedback.Store := { docs := [], nextOid := 0 }

def fbDoc0 : Feedback.FbDoc :=
  { _id := .oid 0, user_id := "user123", rating := 5, comment := ""
    order_id := none, created_at := 0, updated_at := 0 }

def fbStoreOne : Feedback.Store := { docs := [fbDoc0], nextOid := 1 }

def ordersRow1 : Orders.OrderRow :=
  { id := 1, user_id := "user123", items := "[]", total := 10
    status := "pending", created_at := 0, updated_at := 0 }

def ordersStoreOne : Orders.DbState := { rows := [ordersRow1], nextId := 2 }

-- PUT /orders/:id validity of a request body, as read by the claims below:
-- a field counts as supplied only when its value is truthy (C10 records the
-- falsy-field behavior separately).
def Orders.SuppliedTruthy (b : Orders.PutBody) : Prop :=
  (∀ s, b.status = some s → s ≠ "") ∧ (∀ t, b.total = some t → t ≠ 0)

def Orders.SomeField (b : Orders.PutBody) : Prop :=
  b.status ≠ none ∨ b.items ≠ none ∨ b.total ≠ none

/-!
Supporting lemmas.
-/

theorem mem_insertSorted {α : Type} (le : α → α → Bool) (a x : α)
    (l : List α) : x ∈ insertSorted le a l ↔ x = a ∨ x ∈ l := by
  induction l with
  | nil => simp [insertSorted]
  | cons b bs ih =>
    unfold insertSorted
    split
    · simp [List.mem_cons]
    · simp [List.mem_cons, ih]
      tauto

theorem mem_insertionSort {α : Type} (le : α → α → Bool) (x : α)
    (l : List α) : x ∈ insertionSort le l ↔ x ∈ l := by
  induction l with
  | nil => simp [insertionSort]
  | cons a as ih => simp [insertionSort, mem_insertSorted, ih, List.mem_cons]

theorem mem_sortByCreatedDesc {α : Type} (key : α → Nat) (x : α)
    (l : List α) : x ∈ sortByCreatedDesc key l ↔ x ∈ l :=
  mem_insertionSort _ x l

namespace Orders

theorem selectById_eq_nil (rows : List OrderRow) (id : Nat)
    (h : ∀ r ∈ rows, r.id ≠ id) : selectById rows id = [] := by
  unfold selectById
  apply List.filter_eq_nil_iff.mpr
  intro r hr
  simpa using h r hr

theorem selectById_unique : ∀ (rows : List OrderRow) (r : OrderRow) (id : Nat),
    rows.Pairwise (fun a b => a.id ≠ b.id) → r ∈ rows → r.id = id →
    selectById rows id = [r]
  | [], r, _, _, hr, _ => absurd hr (List.not_mem_nil r)
  | x :: xs, r, id, hu, hr, hid => by
    rcases List.pairwise_cons.mp hu with ⟨hx, hxs⟩
    unfold selectById
    rw [List.filter_cons]
    rcases List.mem_cons.mp hr with rfl | hmem
    · rw [if_pos (by simp [hid])]
      have h1 := selectById_eq_nil xs id (fun y hy => by have := hx y hy; omega)
      unfold selectById at h1
      rw [h1]
    · have hxid : ¬ ((x.id == id) = true) := by
        have := hx r hmem
        simp only [beq_iff_eq]
        omega
      rw [if_neg hxid]
      have h2 := selectById_unique xs r id hxs hmem hid
      unfold selectById at h2
      rw [h2]

theorem selectById_map (rows : List OrderRow) (g : OrderRow → OrderRow)
    (hg : ∀ r, (g r).id = r.id) (id : Nat) :
    selectById (rows.map g) id = (selectById rows id).map g := by
  unfold selectById
  induction rows with
  | nil => rfl
  | cons r rs ih =>
    by_cases h : r.id = id
    · simp only [List.map_cons, List.filter_cons, hg, h, beq_self_eq_true,
        if_true, List.map_cons, ih]
    · have hb : ((g r).id == id) = false := by simp [hg, h]
      have hb2 : (r.id == id) = false := by simp [h]
      simp only [List.map_cons, List.filter_cons, hb, hb2, Bool.false_eq_true,
        if_false, ih]

theorem selectById_append_fresh (rows : List OrderRow) (row : OrderRow)
    (n : Nat) (hlt : ∀ r ∈ rows, r.id < n) (hrow : row.id = n) :
    selectById (rows ++ [row]) n = [row] := by
  unfold selectById
  rw [List.filter_append]
  have h1 : rows.filter (fun r => r.id == n) = [] := by
    apply List.filter_eq_nil_iff.mpr
    intro r hr
    have := hlt r hr
    simp only [beq_iff_eq]
    omega
  rw [h1]
  simp [List.filter_cons, hrow]

theorem applyStatus_id (b : PutBody) (r : OrderRow) :
    (applyStatus b r).id = r.id := by
  unfold applyStatus; split <;> rfl

theorem applyItems_id (b : PutBody) (r : OrderRow) :
    (applyItems b r).id = r.id := by
  unfold applyItems; split <;> rfl

theorem applyTotal_id (b : PutBody) (r : OrderRow) :
    (applyTotal b r).id = r.id := by
  unfold applyTotal; split <;> rfl

theorem updRow_id (b : PutBody) (now : Nat) (r : OrderRow) :
    (updRow b now r).id = r.id := by
  unfold updRow
  simp [applyTotal_id, applyItems_id, applyStatus_id]

theorem applyStatus_user_id (b : PutBody) (r : OrderRow) :
    (applyStatus b r).user_id = r.user_id := by
  unfold applyStatus; split <;> rfl

theorem applyItems_user_id (b : PutBody) (r : OrderRow) :
    (applyItems b r).user_id = r.user_id := by
  unfold applyItems; split <;> rfl

theorem applyTotal_user_id (b : PutBody) (r : OrderRow) :
    (applyTotal b r).user_id = r.user_id := by
  unfold applyTotal; split <;> rfl

theorem updRow_user_id (b : PutBody) (now : Nat) (r : OrderRow) :
    (updRow b now r).user_id = r.user_id := by
  unfold updRow
  simp [applyTotal_user_id, applyItems_user_id, applyStatus_user_id]

theorem applyStatus_created_at (b : PutBody) (r : OrderRow) :
    (applyStatus b r).created_at = r.created_at := by
  unfold applyStatus; split <;> rfl

theorem applyItems_created_at (b : PutBody) (r : OrderRow) :
    (applyItems b r).created_at = r.created_at := by
  unfold applyItems; split <;> rfl

theorem applyTotal_created_at (b : PutBody) (r : OrderRow) :
    (applyTotal b r).created_at = r.created_at := by
  unfold applyTotal; split <;> rfl

theorem updRow_created_at (b : PutBody) (now : Nat) (r : OrderRow) :
    (updRow b now r).created_at = r.created_at := by
  unfold updRow
  simp [applyTotal_created_at, applyItems_created_at, applyStatus_created_at]

theorem updRow_updated_at (b : PutBody) (now : Nat) (r : OrderRow) :
    (updRow b now r).updated_at = now := rfl

theorem applyItems_status (b : PutBody) (r : OrderRow) :
    (applyItems b r).status = r.status := by
  unfold applyItems; split <;> rfl

theorem applyTotal_status (b : PutBody) (r : OrderRow) :
    (applyTotal b r).status = r.status := by
  unfold applyTotal; split <;> rfl

theorem updRow_status_eq (b : PutBody) (now : Nat) (r : OrderRow) :
    (updRow b now r).status = (applyStatus b r).status := by
  show (applyTotal b (applyItems b (applyStatus b r))).status = _
  rw [applyTotal_status, applyItems_status]

theorem updRow_status_some (b : PutBody) (now : Nat) (r : OrderRow)
    (s : String) (hb : b.status = some s) (hs : s ≠ "") :
    (updRow b now r).status = s := by
  rw [updRow_status_eq]
  simp [applyStatus, truthyStr, hb, hs]

theorem updRow_status_none (b : PutBody) (now : Nat) (r : OrderRow)
    (hb : b.status = none) : (updRow b now r).status = r.status := by
  rw [updRow_status_eq]
  simp [applyStatus, truthyStr, hb]

theorem applyStatus_items (b : PutBody) (r : OrderRow) :
    (applyStatus b r).items = r.items := by
  unfold applyStatus; split <;> rfl

theorem applyTotal_items (b : PutBody) (r : OrderRow) :
    (applyTotal b r).items = r.items := by
  unfold applyTotal; split <;> rfl

theorem updRow_items_some (b : PutBody) (now : Nat) (r : OrderRow)
    (its : List String) (hb : b.items = some its) :
    (updRow b now r).items = stringifyItems its := by
  unfold updRow
  simp [applyTotal_items, applyItems, truthyArr, hb]

theorem updRow_items_none (b : PutBody) (now : Nat) (r : OrderRow)
    (hb : b.items = none) : (updRow b now r).items = r.items := by
  unfold updRow
  simp [applyTotal_items, applyItems, applyStatus_items, truthyArr, hb]

theorem applyStatus_total (b : PutBody) (r : OrderRow) :
    (applyStatus b r).total = r.total := by
  unfold applyStatus; split <;> rfl

theorem applyItems_total (b : PutBody) (r : OrderRow) :
    (applyItems b r).total = r.total := by
  unfold applyItems; split <;> rfl

theorem updRow_total_some (b : PutBody) (now : Nat) (r : OrderRow)
    (t : ℚ) (hb : b.total = some t) (ht : t ≠ 0) :
    (updRow b now r).total = t := by
  unfold updRow
  simp [applyTotal, truthyNum, hb, ht]

theorem updRow_total_none (b : PutBody) (now : Nat) (r : OrderRow)
    (hb : b.total = none) : (updRow b now r).total = r.total := by
  unfold updRow
  simp [applyTotal, truthyNum, hb, applyItems_total, applyStatus_total]

end Orders

namespace Feedback

theorem findOne_eq_none (docs : List FbDoc) (key : BsonId)
    (h : ∀ d ∈ docs, d._id ≠ key) : findOne docs key = none := by
  unfold findOne
  induction docs with
  | nil => rfl
  | cons d ds ih =>
    have hd : (d._id == key) = false := by
      simpa using h d (List.mem_cons_self d ds)
    simp [List.filter_cons, hd]
    simpa using ih fun x hx => h x (List.mem_cons_of_mem d hx)

theorem findOne_str_of_allOids (st : Store) (s : String) (h : AllOids st) :
    findOne st.docs (.str s) = none := by
  apply findOne_eq_none
  intro d hd
  rcases h d hd with ⟨n, hn⟩
  simp [hn]

theorem findOne_append_fresh (docs : List FbDoc) (doc : FbDoc) (m : Nat)
    (h : ∀ d ∈ docs, ∀ n, d._id = BsonId.oid n → n < m)
    (hdoc : doc._id = BsonId.oid m) :
    findOne (docs ++ [doc]) (.oid m) = some doc := by
  unfold findOne
  rw [List.filter_append]
  have h1 : docs.filter (fun d => d._id == BsonId.oid m) = [] := by
    apply List.filter_eq_nil_iff.mpr
    intro d hd
    simp only [beq_eq_false_iff_ne, ne_eq, beq_iff_eq]
    intro he
    have := h d hd m he
    omega
  have h2 : (doc._id == BsonId.oid m) = true := by simp [hdoc]
  simp [h1, List.filter_cons, h2]

theorem deleteOne_no_match (docs : List FbDoc) (key : BsonId)
    (h : ∀ d ∈ docs, d._id ≠ key) : deleteOne docs key = (docs, 0) := by
  induction docs with
  | nil => rfl
  | cons d ds ih =>
    have hd : (d._id == key) = false := by
      simpa using h d (List.mem_cons_self d ds)
    have ihh := ih fun x hx => h x (List.mem_cons_of_mem d hx)
    unfold deleteOne
    simp [hd, ihh]

theorem mem_deleteOne : ∀ (docs : List FbDoc) (key : BsonId) (d : FbDoc),
    d ∈ (deleteOne docs key).1 → d ∈ docs
  | [], _, d, hd => absurd hd (List.not_mem_nil d)
  | x :: xs, key, d, hd => by
    unfold deleteOne at hd
    by_cases hx : (x._id == key) = true
    · simp only [hx, if_true] at hd
      exact List.mem_cons_of_mem x hd
    · simp only [hx, Bool.false_eq_true, if_false] at hd
      rcases List.mem_cons.mp hd with rfl | hmem
      · exact List.mem_cons_self d xs
      · exact List.mem_cons_of_mem x (mem_deleteOne xs key d hmem)

end Feedback

theorem jsParseInt_bounds {q : ℚ} (h1 : 1 ≤ q) (h5 : q ≤ 5) :
    1 ≤ jsParseInt q ∧ jsParseInt q ≤ 5 := by
  have h0 : (0:ℚ) ≤ q := le_trans (by norm_num) h1
  rw [jsParseInt, if_pos h0]
  constructor
  · exact Rat.le_floor.mpr (by exact_mod_cast h1)
  · by_contra hlt
    push_neg at hlt
    have h6 : (6:Int) ≤ Rat.floor q := by omega
    have := Rat.le_floor.mp h6
    push_cast at this
    linarith

/-!
Claim theorems.
-/

/-- Claim C6: for every request to a data route of the orders or feedback
service, a failed pre-flight database probe yields a 503 response with the
store untouched; the route handler itself runs only when the probe
succeeds. -/
theorem C6_probe_gate :
    (∀ st now r, Orders.serve false st now r = (st, Orders.Res.unavailable)) ∧
    (∀ st now r,
      Feedback.serve false st now r = (st, Feedback.Res.unavailable)) ∧
    (∀ st now r, Orders.serve true st now r = Orders.handle st now r) ∧
    (∀ st now r, Feedback.serve true st now r = Feedback.handle st now r) ∧
    Orders.Res.status Orders.Res.unavailable = 503 ∧
    Feedback.Res.status Feedback.Res.unavailable = 503 :=
  ⟨fun _ _ _ => rfl, fun _ _ _ => rfl, fun _ _ _ => rfl, fun _ _ _ => rfl,
    rfl, rfl⟩

/-- Claim C7: GET /health of each of the three services answers HTTP 200 with
status, service name and timestamp fields, and its dependency field is
"Connected" exactly when the store-reachability probe succeeds (for the auth
service the probe is admin.apps.length > 0). -/
theorem C7_health :
    ∀ (isConnected : Bool) (appsLength now : Nat),
      (ordersHealth isConnected now).httpStatus = 200 ∧
      (feedbackHealth isConnected now).httpStatus = 200 ∧
      (authHealth appsLength now).httpStatus = 200 ∧
      (ordersHealth isConnected now).status = "OK" ∧
      (ordersHealth isConnected now).service = "Orders Service" ∧
      (feedbackHealth isConnected now).service = "Feedback Service" ∧
      (authHealth appsLength now).service = "Auth Service" ∧
      (ordersHealth isConnected now).timestamp = now ∧
      (feedbackHealth isConnected now).timestamp = now ∧
      (authHealth appsLength now).timestamp = now ∧
      ((ordersHealth isConnected now).dependency = "Connected" ↔
        isConnected = true) ∧
      ((ordersHealth isConnected now).dependency = "Disconnected" ↔
        isConnected = false) ∧
      ((feedbackHealth isConnected now).dependency = "Connected" ↔
        isConnected = true) ∧
      ((feedbackHealth isConnected now).dependency = "Disconnected" ↔
        isConnected = false) ∧
      ((authHealth appsLength now).dependency = "Connected" ↔
        0 < appsLength) ∧
      ((authHealth appsLength now).dependency = "Disconnected" ↔
        appsLength = 0) := by
  intro c apps now
  cases c <;> rcases Nat.eq_zero_or_pos apps with h | h <;>
    simp [ordersHealth, feedbackHealth, authHealth, h] <;> omega

/-- Claim C9: GET /feedback/stats is dispatched to the GET /feedback/:id
route with id bound to the string "stats" (that route is registered first),
so whenever no stored document has the string _id "stats" the response is 404
and the statistics handler never runs. -/
theorem C9_stats_shadowed :
    ∀ (st : Feedback.Store) (q : Feedback.ListQuery),
      (∀ d ∈ st.docs, d._id ≠ Feedback.BsonId.str "stats") →
      Routing.dispatchGet ["feedback", "stats"] =
        (Routing.GetHandler.byId, ["stats"]) ∧
      Routing.serveGet true st q ["feedback", "stats"] =
        (st, Feedback.Res.notFound) := by
  intro st q h
  refine ⟨rfl, ?_⟩
  show Feedback.getFeedbackById st "stats" = (st, Feedback.Res.notFound)
  unfold Feedback.getFeedbackById
  rw [Feedback.findOne_eq_none st.docs _ h]

/-- Witness for C9 at a concrete store holding one ObjectId-keyed document. -/
theorem C9_witness :
    (∀ d ∈ fbStoreOne.docs, d._id ≠ Feedback.BsonId.str "stats") ∧
    Routing.serveGet true fbStoreOne ⟨none, none⟩ ["feedback", "stats"] =
      (fbStoreOne, Feedback.Res.notFound) :=
  ⟨by decide, (C9_stats_shadowed fbStoreOne ⟨none, none⟩ (by decide)).2⟩

/-- Claim C10: the orders service treats falsy body fields as absent:
POST /orders with total 0 is rejected 400 regardless of the other fields,
PUT /orders/:id whose only supplied field is falsy (total 0 or status "") is
rejected 400, and a falsy field supplied alongside a truthy one is silently
ignored (the request behaves exactly as if the falsy field were absent). -/
theorem C10_falsy_fields :
    (∀ st now u its, Orders.serve true st now (.post ⟨u, its, some 0⟩) =
      (st, Orders.Res.badRequest "Dados incompletos")) ∧
    (∀ st now id, Orders.serve true st now (.put id ⟨none, none, some 0⟩) =
      (st, Orders.Res.badRequest "Dados insuficientes")) ∧
    (∀ st now id, Orders.serve true st now (.put id ⟨some "", none, none⟩) =
      (st, Orders.Res.badRequest "Dados insuficientes")) ∧
    (∀ st now id s, s ≠ "" →
      Orders.serve true st now (.put id ⟨some s, none, some 0⟩) =
        Orders.serve true st now (.put id ⟨some s, none, none⟩)) := by
  refine ⟨?_, ?_, ?_, ?_⟩
  · intro st now u its
    show Orders.postOrder st now ⟨u, its, some 0⟩ = _
    simp [Orders.postOrder, truthyNum]
  · intro st now id
    show Orders.putOrder st id now ⟨none, none, some 0⟩ = _
    simp [Orders.putOrder, truthyNum, truthyStr, truthyArr]
  · intro st now id
    show Orders.putOrder st id now ⟨some "", none, none⟩ = _
    simp [Orders.putOrder, truthyNum, truthyStr, truthyArr]
  · intro st now id s hs
    show Orders.putOrder st id now ⟨some s, none, some 0⟩ =
      Orders.putOrder st id now ⟨some s, none, none⟩
    have hrow : ∀ r, Orders.updRow ⟨some s, none, some 0⟩ now r =
        Orders.updRow ⟨some s, none, none⟩ now r := by
      intro r
      simp [Orders.updRow, Orders.applyTotal, Orders.applyItems,
        Orders.applyStatus, truthyNum]
    have hupd : Orders.updatedRows st id now ⟨some s, none, some 0⟩ =
        Orders.updatedRows st id now ⟨some s, none, none⟩ := by
      unfold Orders.updatedRows
      exact List.map_congr_left fun r _ => by rw [hrow r]
    simp [Orders.putOrder, truthyNum, truthyStr, truthyArr, hs, hupd]

/-- Witness for C10 at a concrete store and status value. -/
theorem C10_witness :
    ("ready" ≠ "") ∧
    Orders.serve true ordersStoreOne 9 (.put 1 ⟨some "ready", none, some 0⟩) =
      Orders.serve true ordersStoreOne 9 (.put 1 ⟨some "ready", none, none⟩) :=
  ⟨by decide, C10_falsy_fields.2.2.2 ordersStoreOne 9 1 "ready" (by decide)⟩

theorem Feedback.getFeedbackById_state (st : Feedback.Store) (id : String) :
    (Feedback.getFeedbackById st id).1 = st := by
  unfold Feedback.getFeedbackById
  split <;> rfl

/-- Claim C2: every stored feedback rating is an integer between 1 and 5,
an invariant preserved by every operation of the feedback service; in
particular POST /feedback with rating 6 is answered 400 with the store
unchanged. -/
theorem C2_rating_invariant :
    (∀ (conn : Bool) (st : Feedback.Store) (now : Nat) (r : Feedback.Request),
      Feedback.RatingsOK st → Feedback.RatingsOK (Feedback.serve conn st now r).1) ∧
    (∀ st now u c oid, u ≠ "" →
      Feedback.serve true st now (.post ⟨some u, some 6, c, oid⟩) =
        (st, Feedback.Res.badRequest "Rating inválido")) := by
  constructor
  · intro conn st now r h
    cases conn
    · exact h
    · show Feedback.RatingsOK (Feedback.handle st now r).1
      cases r with
      | list q => exact h
      | getById id =>
        show Feedback.RatingsOK (Feedback.getFeedbackById st id).1
        rw [Feedback.getFeedbackById_state]
        exact h
      | stats => exact h
      | delete id =>
        show Feedback.RatingsOK (Feedback.deleteFeedback st id).1
        unfold Feedback.deleteFeedback
        split
        · exact h
        · intro d hd
          exact h d (Feedback.mem_deleteOne st.docs _ d hd)
      | post b =>
        show Feedback.RatingsOK (Feedback.postFeedback st now b).1
        unfold Feedback.postFeedback
        split
        · exact h
        · split
          · exact h
          · rename_i hval
            intro d hd
            rcases List.mem_append.mp hd with hmem | hmem
            · exact h d hmem
            · have hde : d = Feedback.insertedFeedback st now b := by
                simpa using hmem
              subst hde
              push_neg at hval
              have hb := jsParseInt_bounds hval.1 hval.2
              show 1 ≤ jsParseInt (b.rating.getD 0) ∧
                jsParseInt (b.rating.getD 0) ≤ 5
              exact hb
  · intro st now u c oid hu
    show Feedback.postFeedback st now ⟨some u, some 6, c, oid⟩ = _
    unfold Feedback.postFeedback
    have h1 : (!truthyStr (some u) || !truthyNum (some (6:ℚ))) = false := by
      simp [truthyStr, truthyNum, hu]
    rw [h1]
    have h2 : ((6:ℚ) < 1 ∨ (6:ℚ) > 5) := by norm_num
    simp only [Bool.false_eq_true, if_false, Option.getD, h2, if_true]

/-- Witness for C2: the invariant applied after a concrete valid POST, and
the concrete rating-6 rejection. -/
theorem C2_witness :
    Feedback.RatingsOK
      (Feedback.serve true fbEmpty 0 (.post ⟨some "u", some 5, none, none⟩)).1 ∧
    Feedback.serve true fbEmpty 0 (.post ⟨some "u", some 6, none, none⟩) =
      (fbEmpty, Feedback.Res.badRequest "Rating inválido") :=
  ⟨C2_rating_invariant.1 true fbEmpty 0 _
      (fun d hd => absurd hd (List.not_mem_nil d)),
    C2_rating_invariant.2 fbEmpty 0 "u" none none (by decide)⟩

/-- Counterexample to C1 as stated: in this POST /feedback request both
user_id and rating are supplied, yet the response is 400 (Rating inválido),
not 201, and the store is unchanged. -/
theorem C1_counterexample :
    Feedback.serve true fbEmpty 0 (.post ⟨some "user123", some 6, none, none⟩) =
      (fbEmpty, Feedback.Res.badRequest "Rating inválido") ∧
    Feedback.Res.status
      (Feedback.serve true fbEmpty 0
        (.post ⟨some "user123", some 6, none, none⟩)).2 = 400 := by
  constructor
  · decide
  · decide

/-- Claim C1 (amended): while the probe succeeds, POST /orders answers 201
with the inserted record (whose status is "pending") when user_id, items and
total are all supplied with truthy values, and 400 with no insertion when one
of them is absent; POST /feedback answers 201 with the created record when a
truthy user_id and a rating within 1..5 are supplied, and 400 with no
insertion when user_id or rating is absent. -/
theorem C1_post_create :
    (∀ st now u its t, Orders.IdsBelowNext st → u ≠ "" → t ≠ (0:ℚ) →
      Orders.serve true st now (.post ⟨some u, some its, some t⟩) =
        ({ rows := st.rows ++ [Orders.insertedOrder st now u its t]
           nextId := st.nextId + 1 },
          Orders.Res.created (Orders.insertedOrder st now u its t)) ∧
      (Orders.insertedOrder st now u its t).status = "pending") ∧
    (∀ st now b, b.user_id = none ∨ b.items = none ∨ b.total = none →
      Orders.serve true st now (.post b) =
        (st, Orders.Res.badRequest "Dados incompletos")) ∧
    (∀ st now u q c oid, Feedback.OidsBelowNext st → u ≠ "" →
      (1:ℚ) ≤ q → q ≤ 5 →
      Feedback.serve true st now (.post ⟨some u, some q, c, oid⟩) =
        ({ docs := st.docs ++
            [Feedback.insertedFeedback st now ⟨some u, some q, c, oid⟩]
           nextOid := st.nextOid + 1 },
          Feedback.Res.created
            (some (Feedback.insertedFeedback st now ⟨some u, some q, c, oid⟩)))) ∧
    (∀ st now b, b.user_id = none ∨ b.rating = none →
      Feedback.serve true st now (.post b) =
        (st, Feedback.Res.badRequest "Dados incompletos")) := by
  refine ⟨?_, ?_, ?_, ?_⟩
  · intro st now u its t hwf hu ht
    have hrow : (Orders.insertedOrder st now u its t).id = st.nextId := rfl
    have hsel := Orders.selectById_append_fresh st.rows
      (Orders.insertedOrder st now u its t) st.nextId hwf hrow
    constructor
    · show Orders.postOrder st now ⟨some u, some its, some t⟩ = _
      unfold Orders.postOrder
      have hc : (!truthyStr (some u) || !truthyArr (some its) ||
          !truthyNum (some t)) = false := by
        simp [truthyStr, truthyArr, truthyNum, hu, ht]
      rw [hc]
      have hrows : Orders.insertedRows st now ⟨some u, some its, some t⟩ =
          st.rows ++ [Orders.insertedOrder st now u its t] := rfl
      simp only [Bool.false_eq_true, if_false, hrows, hsel]
    · rfl
  · intro st now b hmiss
    show Orders.postOrder st now b = _
    unfold Orders.postOrder
    have hc : (!truthyStr b.user_id || !truthyArr b.items ||
        !truthyNum b.total) = true := by
      rcases hmiss with h | h | h <;> simp [h, truthyStr, truthyArr, truthyNum]
    rw [hc]
    simp
  · intro st now u q c oid hwf hu h1 h5
    show Feedback.postFeedback st now ⟨some u, some q, c, oid⟩ = _
    unfold Feedback.postFeedback
    have hq0 : q ≠ 0 := by
      intro h
      rw [h] at h1
      norm_num at h1
    have hc : (!truthyStr (some u) || !truthyNum (some q)) = false := by
      simp [truthyStr, truthyNum, hu, hq0]
    rw [hc]
    have hrange : ¬ ((some q).getD 0 < 1 ∨ (some q).getD 0 > 5) := by
      simp only [Option.getD]
      push_neg
      exact ⟨h1, h5⟩
    have hdoc : (Feedback.insertedFeedback st now
        ⟨some u, some q, c, oid⟩)._id = Feedback.BsonId.oid st.nextOid := rfl
    have hfind := Feedback.findOne_append_fresh st.docs
      (Feedback.insertedFeedback st now ⟨some u, some q, c, oid⟩)
      st.nextOid hwf hdoc
    simp only [Bool.false_eq_true, if_false, hrange, hfind]
  · intro st now b hmiss
    show Feedback.postFeedback st now b = _
    unfold Feedback.postFeedback
    have hc : (!truthyStr b.user_id || !truthyNum b.rating) = true := by
      rcases hmiss with h | h <;> simp [h, truthyStr, truthyNum]
    rw [hc]
    simp

/-- Witness for C1 (amended) at concrete requests. -/
theorem C1_witness :
    Orders.serve true ordersEmpty 7 (.post ⟨some "user123", some ["x"], some 10⟩) =
      ({ rows := [Orders.insertedOrder ordersEmpty 7 "user123" ["x"] 10]
         nextId := 2 },
        Orders.Res.created (Orders.insertedOrder ordersEmpty 7 "user123" ["x"] 10)) ∧
    Feedback.serve true fbEmpty 0 (.post ⟨some "user123", some 5, none, none⟩) =
      ({ docs := [Feedback.insertedFeedback fbEmpty 0
          ⟨some "user123", some 5, none, none⟩]
         nextOid := 1 },
        Feedback.Res.created (some (Feedback.insertedFeedback fbEmpty 0
          ⟨some "user123", some 5, none, none⟩))) ∧
    Orders.serve true ordersEmpty 7 (.post ⟨none, some ["x"], some 10⟩) =
      (ordersEmpty, Orders.Res.badRequest "Dados incompletos") ∧
    Feedback.serve true fbEmpty 0 (.post ⟨some "user123", none, none, none⟩) =
      (fbEmpty, Feedback.Res.badRequest "Dados incompletos") := by
  refine ⟨?_, ?_, ?_, ?_⟩
  · have h := (C1_post_create.1 ordersEmpty 7 "user123" ["x"] 10
      (fun r hr => absurd hr (List.not_mem_nil r)) (by decide) (by decide)).1
    exact h
  · have h := C1_post_create.2.2.1 fbEmpty 0 "user123" 5 none none
      (fun d hd => absurd hd (List.not_mem_nil d)) (by decide)
      (by norm_num) (by norm_num)
    exact h
  · exact C1_post_create.2.1 ordersEmpty 7 _ (Or.inl rfl)
  · exact C1_post_create.2.2.2 fbEmpty 0 _ (Or.inr rfl)

/-- Claim C3 evaluation: the orders half holds (existing id yields the
record, missing id yields 404), but in the feedback service GET /feedback/:id
compares the raw URL string against the stored _id keys, and on any store
whose _ids are driver-generated ObjectIds — which is every store populated
through POST /feedback — it answers 404 for every string id, so a stored
feedback can never be fetched by its id. -/
theorem C3_get_by_id :
    (∀ (st : Orders.DbState) (now id : Nat) (r : Orders.OrderRow),
      Orders.UniqueIds st → r ∈ st.rows → r.id = id →
      Orders.serve true st now (.getById id) = (st, Orders.Res.orderOk r)) ∧
    (∀ (st : Orders.DbState) (now id : Nat), (∀ r ∈ st.rows, r.id ≠ id) →
      Orders.serve true st now (.getById id) = (st, Orders.Res.notFound)) ∧
    (∀ (st : Feedback.Store) (now : Nat) (s : String), Feedback.AllOids st →
      Feedback.serve true st now (.getById s) = (st, Feedback.Res.notFound)) := by
  refine ⟨?_, ?_, ?_⟩
  · intro st now id r hu hr hid
    show Orders.getOrder st id = _
    unfold Orders.getOrder
    rw [Orders.selectById_unique st.rows r id hu hr hid]
  · intro st now id h
    show Orders.getOrder st id = _
    unfold Orders.getOrder
    rw [Orders.selectById_eq_nil st.rows id h]
  · intro st now s h
    show Feedback.getFeedbackById st s = _
    unfold Feedback.getFeedbackById
    rw [Feedback.findOne_str_of_allOids st s h]

/-- Witness for C3 at concrete stores; the third conjunct exercises the
failing input: the store holds exactly the document POST /feedback created,
and fetching it by (the hex string of) its id answers 404. -/
theorem C3_witness :
    Orders.serve true ordersStoreOne 0 (.getById 1) =
      (ordersStoreOne, Orders.Res.orderOk ordersRow1) ∧
    Orders.serve true ordersStoreOne 0 (.getById 5) =
      (ordersStoreOne, Orders.Res.notFound) ∧
    Feedback.serve true fbStoreOne 0 (.getById "000000000000000000000000") =
      (fbStoreOne, Feedback.Res.notFound) := by
  refine ⟨?_, ?_, ?_⟩
  · exact C3_get_by_id.1 ordersStoreOne 0 1 ordersRow1
      (by simp [Orders.UniqueIds, ordersStoreOne]) (by decide) rfl
  · exact C3_get_by_id.2.1 ordersStoreOne 0 5 (by decide)
  · exact C3_get_by_id.2.2 fbStoreOne 0 "000000000000000000000000"
      (fun d hd => by
        rcases List.mem_singleton.mp hd with rfl
        exact ⟨0, rfl⟩)

/-- Claim C4 evaluation: the orders half holds (existing id is removed with a
success message, missing id yields 404 with the store unchanged), but in the
feedback service DELETE /feedback/:id compares the raw URL string against the
stored ObjectId keys, so on any POST-populated store it answers 404 for every
string id and never deletes anything. -/
theorem C4_delete :
    (∀ (st : Orders.DbState) (now id : Nat), (∃ r ∈ st.rows, r.id = id) →
      Orders.serve true st now (.delete id) =
        ({ st with rows := st.rows.filter (fun r => !(r.id == id)) },
          Orders.Res.deleted)) ∧
    (∀ (st : Orders.DbState) (now id : Nat), (∀ r ∈ st.rows, r.id ≠ id) →
      Orders.serve true st now (.delete id) = (st, Orders.Res.notFound)) ∧
    (∀ (st : Feedback.Store) (now : Nat) (s : String), Feedback.AllOids st →
      Feedback.serve true st now (.delete s) =
        (st, Feedback.Res.notFound)) := by
  refine ⟨?_, ?_, ?_⟩
  · intro st now id hex
    show Orders.deleteOrder st id = _
    unfold Orders.deleteOrder
    have hlt : (st.rows.filter (fun r => !(r.id == id))).length <
        st.rows.length := by
      rw [List.length_filter_lt_length_iff_exists]
      rcases hex with ⟨r, hr, hid⟩
      exact ⟨r, hr, by simp [hid]⟩
    have hne : (st.rows.length ==
        (st.rows.filter (fun r => !(r.id == id))).length) = false := by
      simp only [beq_eq_false_iff_ne]
      omega
    rw [hne]
    simp
  · intro st now id h
    show Orders.deleteOrder st id = _
    unfold Orders.deleteOrder
    have hall : st.rows.filter (fun r => !(r.id == id)) = st.rows := by
      apply List.filter_eq_self.mpr
      intro r hr
      simp [h r hr]
    rw [hall]
    simp
  · intro st now s h
    show Feedback.deleteFeedback st s = _
    unfold Feedback.deleteFeedback
    have h' : ∀ d ∈ st.docs, d._id ≠ Feedback.BsonId.str s := by
      intro d hd
      rcases h d hd with ⟨n, hn⟩
      simp [hn]
    rw [Feedback.deleteOne_no_match st.docs _ h']
    simp

/-- Witness for C4 at concrete stores; the third conjunct exercises the
failing input: deleting the POST-created feedback by its id string answers
404 and removes nothing. -/
theorem C4_witness :
    Orders.serve true ordersStoreOne 9 (.delete 1) =
      ({ rows := [], nextId := 2 }, Orders.Res.deleted) ∧
    Orders.serve true ordersStoreOne 9 (.delete 5) =
      (ordersStoreOne, Orders.Res.notFound) ∧
    Feedback.serve true fbStoreOne 3 (.delete "000000000000000000000000") =
      (fbStoreOne, Feedback.Res.notFound) := by
  refine ⟨?_, ?_, ?_⟩
  · have h := C4_delete.1 ordersStoreOne 9 1 ⟨ordersRow1, by decide, rfl⟩
    rw [h]
    decide
  · exact C4_delete.2.1 ordersStoreOne 9 5 (by decide)
  · exact C4_delete.2.2 fbStoreOne 3 "000000000000000000000000"
      (fun d hd => by
        rcases List.mem_singleton.mp hd with rfl
        exact ⟨0, rfl⟩)

/-- Claim C8: GET /orders and GET /feedback answer success with the filtered
record list and a count equal to its length, and every returned record
satisfies every (truthy) filter supplied in the query string. -/
theorem C8_list :
    (∀ st now q, Orders.serve true st now (.list q) =
        (st, Orders.Res.listOk (Orders.listResult st q)
          (Orders.listResult st q).length) ∧
      (∀ r ∈ Orders.listResult st q,
        (∀ u, q.user_id = some u → u ≠ "" → r.user_id = u) ∧
        (∀ s, q.status = some s → s ≠ "" → r.status = s))) ∧
    (∀ st now q, Feedback.serve true st now (.list q) =
        (st, Feedback.Res.listOk (Feedback.listResult st q)
          (Feedback.listResult st q).length) ∧
      (∀ d ∈ Feedback.listResult st q,
        (∀ u, q.user_id = some u → u ≠ "" → d.user_id = u) ∧
        (∀ s k, q.rating = some s → s ≠ "" → jsParseIntStr s = some k →
          d.rating = k))) := by
  constructor
  · intro st now q
    refine ⟨rfl, ?_⟩
    intro r hr
    unfold Orders.listResult at hr
    have hr' : r ∈ st.rows.filter (Orders.queryMatch q) :=
      (mem_sortByCreatedDesc (fun x => x.created_at) r _).mp hr
    have hq : Orders.queryMatch q r = true := (List.mem_filter.mp hr').2
    unfold Orders.queryMatch at hq
    rw [Bool.and_eq_true] at hq
    constructor
    · intro u hqu hu
      have h1 := hq.1
      rw [hqu] at h1
      dsimp only at h1
      rw [if_neg hu] at h1
      simpa using h1
    · intro s hqs hs
      have h2 := hq.2
      rw [hqs] at h2
      dsimp only at h2
      rw [if_neg hs] at h2
      simpa using h2
  · intro st now q
    refine ⟨rfl, ?_⟩
    intro d hd
    unfold Feedback.listResult at hd
    have hd' : d ∈ st.docs.filter (Feedback.queryMatch q) :=
      (mem_sortByCreatedDesc (fun x => x.created_at) d _).mp hd
    have hq : Feedback.queryMatch q d = true := (List.mem_filter.mp hd').2
    unfold Feedback.queryMatch at hq
    rw [Bool.and_eq_true] at hq
    constructor
    · intro u hqu hu
      have h1 := hq.1
      rw [hqu] at h1
      dsimp only at h1
      rw [if_neg hu] at h1
      simpa using h1
    · intro s k hqs hs hk
      have h2 := hq.2
      rw [hqs] at h2
      dsimp only at h2
      rw [if_neg hs, hk] at h2
      simpa using h2

/-- Witness for C8 at concrete stores and filters. -/
theorem C8_witness :
    ordersRow1 ∈ Orders.listResult ordersStoreOne ⟨some "user123", none⟩ ∧
    ordersRow1.user_id = "user123" ∧
    fbDoc0 ∈ Feedback.listResult fbStoreOne ⟨none, some "5"⟩ ∧
    fbDoc0.rating = 5 := by
  refine ⟨by decide, ?_, by decide, ?_⟩
  · exact ((C8_list.1 ordersStoreOne 0 ⟨some "user123", none⟩).2 ordersRow1
      (by decide)).1 "user123" rfl (by decide)
  · exact ((C8_list.2 fbStoreOne 0 ⟨none, some "5"⟩).2 fbDoc0
      (by decide)).2 "5" 5 rfl (by decide) (by decide)

theorem Orders.putGuard_false (b : Orders.PutBody)
    (hT : Orders.SuppliedTruthy b) (hS : Orders.SomeField b) :
    (!truthyStr b.status && !truthyArr b.items && !truthyNum b.total)
      = false := by
  rcases hS with h | h | h
  · rcases Option.ne_none_iff_exists'.mp h with ⟨s, hs⟩
    have := hT.1 s hs
    simp [hs, truthyStr, this]
  · rcases Option.ne_none_iff_exists'.mp h with ⟨its, hi⟩
    simp [hi, truthyArr]
  · rcases Option.ne_none_iff_exists'.mp h with ⟨t, ht⟩
    have := hT.2 t ht
    simp [ht, truthyNum, this]

theorem Orders.updatedRows_id_invariant (id now : Nat)
    (b : Orders.PutBody) :
    ∀ x : Orders.OrderRow,
      ((fun y => if y.id == id then Orders.updRow b now y else y) x).id
        = x.id := by
  intro x
  by_cases hx : x.id = id
  · simp [hx, Orders.updRow_id]
  · simp [hx]

/-- Claim C5: while the probe succeeds, PUT /orders/:id supplying a
non-empty set of truthy fields among status, items and total changes exactly
the supplied fields plus updated_at on the addressed order, leaves its other
fields and every other order unchanged, and returns the updated record; when
no order has that id it answers 404 with the store unchanged.  (Per C10 a
present-but-falsy field is not "supplied": the service ignores it.) -/
theorem C5_put_update :
    (∀ (st : Orders.DbState) (now id : Nat) (b : Orders.PutBody)
        (r : Orders.OrderRow),
      Orders.UniqueIds st → Orders.SuppliedTruthy b → Orders.SomeField b →
      r ∈ st.rows → r.id = id →
      Orders.serve true st now (.put id b) =
        ({ st with rows := Orders.updatedRows st id now b },
          Orders.Res.orderOk (Orders.updRow b now r)) ∧
      (Orders.updRow b now r).id = r.id ∧
      (Orders.updRow b now r).user_id = r.user_id ∧
      (Orders.updRow b now r).created_at = r.created_at ∧
      (Orders.updRow b now r).updated_at = now ∧
      (∀ s, b.status = some s → (Orders.updRow b now r).status = s) ∧
      (b.status = none → (Orders.updRow b now r).status = r.status) ∧
      (∀ its, b.items = some its →
        (Orders.updRow b now r).items = stringifyItems its) ∧
      (b.items = none → (Orders.updRow b now r).items = r.items) ∧
      (∀ t, b.total = some t → (Orders.updRow b now r).total = t) ∧
      (b.total = none → (Orders.updRow b now r).total = r.total) ∧
      (∀ x ∈ st.rows, x.id ≠ id → x ∈ Orders.updatedRows st id now b)) ∧
    (∀ (st : Orders.DbState) (now id : Nat) (b : Orders.PutBody),
      Orders.SuppliedTruthy b → Orders.SomeField b →
      (∀ r ∈ st.rows, r.id ≠ id) →
      Orders.serve true st now (.put id b) =
        (st, Orders.Res.notFound)) := by
  constructor
  · intro st now id b r hu hT hS hr hid
    have hg := Orders.putGuard_false b hT hS
    have hsel : Orders.selectById st.rows id = [r] :=
      Orders.selectById_unique st.rows r id hu hr hid
    have hsel2 : Orders.selectById (Orders.updatedRows st id now b) id =
        [Orders.updRow b now r] := by
      unfold Orders.updatedRows
      rw [Orders.selectById_map st.rows _
        (Orders.updatedRows_id_invariant id now b) id, hsel]
      simp [hid]
    refine ⟨?_, Orders.updRow_id b now r, Orders.updRow_user_id b now r,
      Orders.updRow_created_at b now r, Orders.updRow_updated_at b now r,
      fun s hs => Orders.updRow_status_some b now r s hs (hT.1 s hs),
      fun hn => Orders.updRow_status_none b now r hn,
      fun its hi => Orders.updRow_items_some b now r its hi,
      fun hn => Orders.updRow_items_none b now r hn,
      fun t ht => Orders.updRow_total_some b now r t ht (hT.2 t ht),
      fun hn => Orders.updRow_total_none b now r hn, ?_⟩
    · show Orders.putOrder st id now b = _
      unfold Orders.putOrder
      rw [hg, hsel, hsel2]
      simp
    · intro x hx hxid
      have hfix : (fun y => if y.id == id then Orders.updRow b now y else y) x
          = x := by simp [hxid]
      have hm := List.mem_map_of_mem
        (fun y => if y.id == id then Orders.updRow b now y else y) hx
      rw [hfix] at hm
      exact hm
  · intro st now id b hT hS h
    have hg := Orders.putGuard_false b hT hS
    have hnil : Orders.selectById st.rows id = [] :=
      Orders.selectById_eq_nil st.rows id h
    have hmap : Orders.updatedRows st id now b = st.rows := by
      unfold Orders.updatedRows
      have hcongr : ∀ x ∈ st.rows,
          (fun y => if y.id == id then Orders.updRow b now y else y) x
            = (fun y => y) x := by
        intro x hx
        simp [h x hx]
      rw [List.map_congr_left hcongr, List.map_id']
    show Orders.putOrder st id now b = _
    unfold Orders.putOrder
    rw [hg, hnil, hmap]
    simp

/-- Witness for C5 at a concrete store: updating the status of the stored
order, and updating an absent id. -/
theorem C5_witness :
    Orders.serve true ordersStoreOne 9 (.put 1 ⟨some "ready", none, none⟩) =
      ({ rows := Orders.updatedRows ordersStoreOne 1 9
          ⟨some "ready", none, none⟩, nextId := 2 },
        Orders.Res.orderOk
          (Orders.updRow ⟨some "ready", none, none⟩ 9 ordersRow1)) ∧
    Orders.serve true ordersStoreOne 9 (.put 5 ⟨some "ready", none, none⟩) =
      (ordersStoreOne, Orders.Res.notFound) := by
  constructor
  · exact (C5_put_update.1 ordersStoreOne 9 1 ⟨some "ready", none, none⟩
      ordersRow1 (by simp [Orders.UniqueIds, ordersStoreOne])
      ⟨fun s hs => by cases hs; decide, fun t ht => by cases ht⟩
      (Or.inl (by simp)) (by decide) rfl).1
  · exact C5_put_update.2 ordersStoreOne 9 5 ⟨some "ready", none, none⟩
      ⟨fun s hs => by cases hs; decide, fun t ht => by cases ht⟩
      (Or.inl (by simp)) (by decide)
